import Mathlib

/-!
Verification development for the ultrasound-report-generator repository.

This file gives a shallow embedding, in Lean 4, of the template extractor
(`src/templates/template_extractor.py`), the template catalog and selector
(`src/templates/template_manager.py`), and the batched stateful report
generator (`src/generators/report_generator.py`), together with theorems
settling the behavioural claims about those components.

Python dictionaries are embedded as association lists with
insert-or-update-in-place semantics (a key keeps its first-insertion
position, its value is the last one written), matching CPython's ordered
dicts.  The external multimodal model is embedded as an oracle function
from the call counter to `Option String` (`none` embeds a transport
failure raising an exception).  Python's substring test `pat in s` is
embedded as list-infix on the character data.
-/

namespace UltrasoundRG

/-! ## String utilities shared by every component -/

/-- Python's `pat in s` substring test: `pat` occurs contiguously in `s`. -/
def strContains (s pat : String) : Bool := decide (pat.data <:+: s.data)

/-- Python's ASCII whitespace set as stripped by `str.strip()`. -/
def pyIsSpace (c : Char) : Bool :=
  c = ' ' || c = '\t' || c = '\n' || c = '\r' || c = '\x0b' || c = '\x0c'

/-- Python's `str.strip()` (no argument): drop whitespace from both ends.
Implemented on the character data so that terms reduce definitionally. -/
def pyStrip (s : String) : String :=
  ⟨((s.data.dropWhile pyIsSpace).reverse.dropWhile pyIsSpace).reverse⟩

/-- Python's `str.upper()` on the ASCII range, on the character data. -/
def pyUpper (s : String) : String := ⟨s.data.map Char.toUpper⟩

/-- Python's `str.lower()` on the ASCII range, on the character data. -/
def pyLower (s : String) : String := ⟨s.data.map Char.toLower⟩

/-- `sep.join(parts)`, on the character data. -/
def pyIntercalate (sep : String) : List String → String
  | [] => ""
  | [x] => x
  | x :: xs => x ++ sep ++ pyIntercalate sep xs

/-- Python's `str.endswith(suffix)`, on the character data. -/
def pyEndsWith (s suffix : String) : Bool := suffix.data.isSuffixOf s.data

/-- The character data following the first occurrence of `pat` in a list
(`none` when `pat` does not occur). -/
def afterFirstAux (pat : List Char) : List Char → Option (List Char)
  | [] => if pat.isEmpty then some [] else none
  | c :: rest =>
    if pat.isPrefixOf (c :: rest) then some ((c :: rest).drop pat.length)
    else afterFirstAux pat rest

/-- Python's `str.isupper` restricted to ASCII data: at least one upper-case
letter and no lower-case letter. -/
def pyIsUpper (s : String) : Bool :=
  s.data.any (fun c => c.isUpper) && s.data.all (fun c => !c.isLower)

/-- Python's `text.rstrip(':')`: drop every trailing colon character. -/
def rstripColon (s : String) : String :=
  ⟨(s.data.reverse.dropWhile (fun c => c = ':')).reverse⟩

/-- `"\n".join(content)` as used by the extractor. -/
def joinLines (content : List String) : String := pyIntercalate "\n" content

/-! ## Association lists with Python-dict semantics -/

/-- `d[k] = v` on a Python dict: update in place if the key is present
(keeping its position), append otherwise. -/
def dictInsert {α : Type} (m : List (String × α)) (k : String) (v : α) :
    List (String × α) :=
  if m.any (fun p => p.1 = k) then
    m.map (fun p => if p.1 = k then (k, v) else p)
  else m ++ [(k, v)]

/-- `d.get(k)` / `d[k]` lookup on a Python dict. -/
def dictFind {α : Type} (m : List (String × α)) (k : String) : Option α :=
  (m.find? (fun p => p.1 = k)).map Prod.snd

/-- `list(d.keys())` on a Python dict. -/
def dictKeys {α : Type} (m : List (String × α)) : List String := m.map Prod.fst

/-! ## Template data model (`src/templates/template_model.py`) -/

/-- The `Template` dataclass: `id`, `name`, ordered `sections` mapping and a
`metadata` mapping.  The metadata values occurring in this repository are all
strings. -/
structure Template where
  id : String
  name : String
  sections : List (String × String)
  metadata : List (String × String)
deriving DecidableEq, Repr

/-- One record of the flat catalog persistence format (`§6`): the JSON object
written per template by `TemplateExtractor.save_to_json` and read back by
`TemplateManager._load_templates`. -/
structure TemplateRecord where
  id : String
  name : String
  sections : List (String × String)
  metadata : List (String × String)
deriving DecidableEq, Repr

/-! ## Template catalog (`TemplateManager`) -/

/-- The state of a loaded `TemplateManager`: the `templates` list plus the two
indexes `templates_by_id` and `templates_by_name`. -/
structure TemplateManager where
  templates : List Template
  templates_by_id : List (String × Template)
  templates_by_name : List (String × Template)
deriving DecidableEq, Repr

/-- The loop body of `TemplateManager._load_templates`: build the `Template`
and register it in the list and both indexes. -/
def loadStep (st : TemplateManager) (r : TemplateRecord) : TemplateManager :=
  let template : Template := ⟨r.id, r.name, r.sections, r.metadata⟩
  { templates := st.templates ++ [template]
    templates_by_id := dictInsert st.templates_by_id template.id template
    templates_by_name := dictInsert st.templates_by_name template.name template }

/-- `TemplateManager._load_templates` on an already-decoded record list. -/
def load_templates (records : List TemplateRecord) : TemplateManager :=
  records.foldl loadStep ⟨[], [], []⟩

/-- `TemplateManager.get_template_by_id`; the Python `KeyError` on a missing
id is embedded as `none`. -/
def get_template_by_id (m : TemplateManager) (template_id : String) :
    Option Template :=
  dictFind m.templates_by_id template_id

/-- `TemplateManager.get_template_by_name`; the Python `KeyError` on a missing
name is embedded as `none`. -/
def get_template_by_name (m : TemplateManager) (template_name : String) :
    Option Template :=
  dictFind m.templates_by_name template_name

/-- `TemplateManager.get_all_templates`. -/
def get_all_templates (m : TemplateManager) : List Template := m.templates

/-- `TemplateManager.get_template_names`. -/
def get_template_names (m : TemplateManager) : List String :=
  dictKeys m.templates_by_name

/-- `TemplateExtractor.save_to_json`: serialize each template into one
persistence record with the four fields `id`, `name`, `sections`,
`metadata`. -/
def save_to_json (templates : List Template) : List TemplateRecord :=
  templates.map (fun t => ⟨t.id, t.name, t.sections, t.metadata⟩)

/-! ## Template selector (`TemplateSelector`) -/

/-- The StudyFeatureSet: the dictionary of boolean flags built by
`TemplateSelector._parse_directory_names`. -/
structure ParseInfo where
  has_us_breast : Bool
  has_us_breast_bilateral : Bool
  has_us_breast_right : Bool
  has_us_breast_left : Bool
  has_mg_2d : Bool
  has_mg_3d : Bool
  has_mg_bilateral : Bool
  has_mg_right : Bool
  has_mg_left : Bool
deriving DecidableEq, Repr

/-- The all-false initial feature dictionary. -/
def initInfo : ParseInfo :=
  ⟨false, false, false, false, false, false, false, false, false⟩

/-- The first (breast-ultrasound) `if`-block of the loop body of
`TemplateSelector._parse_directory_names`. -/
def parseStepUS (info : ParseInfo) (dir_upper : String) : ParseInfo :=
  if strContains dir_upper "BREAST" || strContains dir_upper "USBREAST" then
    let info := { info with has_us_breast := true }
    if strContains dir_upper "BILATERAL" ||
        strContains dir_upper "(BILATERAL)" then
      { info with has_us_breast_bilateral := true }
    else if strContains dir_upper "RIGHT" ||
        strContains dir_upper "(RIGHT)" then
      { info with has_us_breast_right := true }
    else if strContains dir_upper "LEFT" ||
        strContains dir_upper "(LEFT)" then
      { info with has_us_breast_left := true }
    else if strContains dir_upper "US_BREAST" ||
        strContains dir_upper "USBREAST" then
      { info with has_us_breast_bilateral := true }
    else info
  else info

/-- The second (mammogram) `if`-block of the loop body of
`TemplateSelector._parse_directory_names`. -/
def parseStepMG (info : ParseInfo) (dir_upper : String) : ParseInfo :=
  if strContains dir_upper "MG" || strContains dir_upper "MMG" ||
      strContains dir_upper "MAMMOGRAM" then
    let info :=
      if strContains dir_upper "MG2D" || strContains dir_upper "_2D_" ||
          strContains dir_upper "2D_MMG" || strContains dir_upper "BI02" then
        { info with has_mg_2d := true }
      else if strContains dir_upper "MG3D" || strContains dir_upper "TOMO" ||
          strContains dir_upper "MG3DBI" then
        { info with has_mg_3d := true }
      else info
    if strContains dir_upper "BI" || strContains dir_upper "BILATERAL" ||
        strContains dir_upper "BIL" then
      { info with has_mg_bilateral := true }
    else if strContains dir_upper "RIGHT" then
      { info with has_mg_right := true }
    else if strContains dir_upper "LEFT" then
      { info with has_mg_left := true }
    else info
  else info

/-- The body of the `for dir_name in directory_names` loop of
`TemplateSelector._parse_directory_names`: upper-case the label, run the
breast-ultrasound block, then the mammogram block. -/
def parseStep (info : ParseInfo) (dir_name : String) : ParseInfo :=
  let dir_upper := pyUpper dir_name
  parseStepMG (parseStepUS info dir_upper) dir_upper

/-- `TemplateSelector._parse_directory_names`. -/
def parse_directory_names (directory_names : List String) : ParseInfo :=
  directory_names.foldl parseStep initInfo

/-- The canonical-template-name decision of `TemplateSelector.select_template`
(the `template_name` variable just before the catalog lookup). -/
def determine_template_name (info : ParseInfo) : Option String :=
  if info.has_us_breast && info.has_mg_3d then
    if info.has_us_breast_bilateral || info.has_mg_bilateral then
      some "DIGITAL 3D MAMMOGRAM & ULTRASOUND OF BOTH BREASTS"
    else if info.has_us_breast_right || info.has_mg_right then
      some "DIGITAL 3D MAMMOGRAM & ULTRASOUND OF _RIGHT BREAST"
    else
      some "DIGITAL 3D MAMMOGRAM & ULTRASOUND OF BOTH BREASTS"
  else if info.has_us_breast && info.has_mg_2d then
    if info.has_us_breast_bilateral || info.has_mg_bilateral then
      some "BILATERAL 2D MAMMOGRAM & ULTRASOUND OF BOTH BREASTS"
    else if info.has_us_breast_right || info.has_mg_right then
      some "DIGITAL 2D MAMMOGRAM & ULTRASOUND OF RIGHT BREAST"
    else
      some "BILATERAL 2D MAMMOGRAM & ULTRASOUND OF BOTH BREASTS"
  else if info.has_us_breast then
    some "ULTRASOUND OF BOTH BREASTS"
  else
    none

/-- The similarity score `fuzz.ratio(a.lower(), b.lower()) / 100.0` of
`TemplateSelector._fuzzy_fallback`, with the external integer-valued
`fuzz.ratio` (range 0–100) abstracted as the parameter `ratio`. -/
def fuzzyScore (ratio : String → String → ℕ) (target_name template_name : String) : ℚ :=
  (ratio (pyLower target_name) (pyLower template_name) : ℚ) / 100

/-- The body of the candidate loop of `TemplateSelector._fuzzy_fallback`:
keep the candidate when its score strictly beats the best so far and reaches
the 0.8 threshold. -/
def fuzzyStep (ratio : String → String → ℕ) (m : TemplateManager)
    (target_name : String) (best : Option Template × ℚ)
    (template_name : String) : Option Template × ℚ :=
  let score := fuzzyScore ratio target_name template_name
  if best.2 < score ∧ (80 : ℚ) / 100 ≤ score then
    (get_template_by_name m template_name, score)
  else best

/-- `TemplateSelector._fuzzy_fallback`. -/
def fuzzy_fallback (ratio : String → String → ℕ) (m : TemplateManager)
    (target_name : String) : Option Template :=
  ((get_template_names m).foldl (fuzzyStep ratio m target_name) (none, 0)).1

/-- `TemplateSelector.select_template`: derive features, decide the canonical
name, look it up exactly, and fall back to fuzzy matching on a miss. -/
def select_template (ratio : String → String → ℕ) (m : TemplateManager)
    (directory_names : List String) : Option Template :=
  let info := parse_directory_names directory_names
  match determine_template_name info with
  | some template_name =>
    match get_template_by_name m template_name with
    | some t => some t
    | none => fuzzy_fallback ratio m template_name
  | none => none

/-! ## Template extractor (`TemplateExtractor`) -/

/-- One body element of the source document, in document order: a paragraph
(carrying its text) or a table (carrying its cell texts row by row). -/
inductive BodyElement where
  | para (text : String)
  | table (rows : List (List String))
deriving DecidableEq, Repr

/-- The marker test `isinstance(element, Paragraph) and "TEMPLATE ONLY" in
element.text.upper()`. -/
def isMarker (e : BodyElement) : Bool :=
  match e with
  | .para text => strContains (pyUpper text) "TEMPLATE ONLY"
  | .table _ => false

/-- The leftmost match of the regex `\(([^)]+)\)`: scan for a `(` followed by
at least one non-`)` character and a closing `)`; on failure resume the
search right after the failed `(`. -/
def parenGroup : List Char → Option (List Char)
  | [] => none
  | c :: rest =>
    if c = '(' then
      let grp := rest.takeWhile (fun d => d ≠ ')')
      if grp.length < rest.length ∧ grp ≠ [] then some grp
      else parenGroup rest
    else parenGroup rest

/-- `TemplateExtractor._extract_variation`. -/
def extract_variation (text : String) : String :=
  match parenGroup text.data with
  | some grp => pyStrip (String.mk grp)
  | none => ""

/-- The variation label attached to a marker element. -/
def elementVariation (e : BodyElement) : String :=
  match e with
  | .para text => extract_variation text
  | .table _ => ""

/-- `TemplateExtractor._table_to_markdown`: first row as header, a `---`
separator row, remaining rows as data, each cell stripped. -/
def table_to_markdown (rows : List (List String)) : String :=
  let headerLines :=
    match rows with
    | [] => ([] : List String)
    | r0 :: _ =>
      let header_cells := r0.map (fun c => pyStrip c)
      ["| " ++ pyIntercalate " | " header_cells ++ " |",
       "| " ++ pyIntercalate " | " (header_cells.map (fun _ => "---")) ++ " |"]
  let dataLines := (rows.drop 1).map
    (fun r => "| " ++ pyIntercalate " | " (r.map (fun c => pyStrip c)) ++ " |")
  "\n" ++ pyIntercalate "\n" (headerLines ++ dataLines) ++ "\n"

/-- The in-progress template dict `{'name': ..., 'sections': ...}` of
`_parse_template_section`. -/
structure TemplateData where
  name : String
  sections : List (String × String)
deriving DecidableEq, Repr

/-- The scanner state of `_parse_template_section`: accumulated
`templates_data`, the in-progress template, the open section label, the
accumulated section body lines and the tracked main heading. -/
structure ScanState where
  templates_data : List TemplateData
  current_template : Option TemplateData
  current_section : String
  current_content : List String
  main_heading : String
deriving DecidableEq, Repr

/-- The initial scanner state at the start of `_parse_template_section`. -/
def initScan : ScanState := ⟨[], none, "", [], ""⟩

/-- The fixed vocabulary of known section headers. -/
def known_sections : List String :=
  ["CLINICAL INFORMATION", "FINDINGS", "COMMENTS", "IMPRESSION", "PROCEDURE",
   "SUMMARY", "L.M.P."]

/-- `current_template['sections'][current_section] = "\n".join(current_content).strip()`. -/
def saveSection (td : TemplateData) (section_name : String)
    (content : List String) : TemplateData :=
  { td with sections := dictInsert td.sections section_name (pyStrip (joinLines content)) }

/-- The body of the scan loop of `_parse_template_section` for one non-marker
element. -/
def stepElement (st : ScanState) (e : BodyElement) : ScanState :=
  match e with
  | .para raw =>
    let text := pyStrip raw
    if text = "" then st
    else
      let text_without_colon := rstripColon text
      if text_without_colon ∈ known_sections ∨
          (pyIsUpper text = true ∧ pyEndsWith text ":" = true) then
        match st.current_template with
        | some ct =>
          let ct := if st.current_section ≠ "" ∧ st.current_content ≠ [] then
              saveSection ct st.current_section st.current_content
            else ct
          { st with current_template := some ct
                    current_section := text_without_colon
                    current_content := [] }
        | none => st
      else if pyIsUpper text = true ∧ text.length > 10 ∧
          text_without_colon ∉ known_sections then
        match st.current_template with
        | some ct =>
          if st.main_heading ≠ "" ∧ text = st.main_heading then
            let ct := if st.current_section ≠ "" ∧ st.current_content ≠ [] then
                saveSection ct st.current_section st.current_content
              else ct
            { st with templates_data := st.templates_data ++ [ct]
                      current_template := some ⟨text, []⟩
                      current_section := ""
                      current_content := [] }
          else if st.main_heading = "" then
            { st with main_heading := text
                      current_template := some ⟨text, []⟩
                      current_section := ""
                      current_content := [] }
          else st
        | none =>
          if st.main_heading = "" then
            { st with main_heading := text
                      current_template := some ⟨text, []⟩
                      current_section := ""
                      current_content := [] }
          else st
      else if st.current_section ≠ "" then
        { st with current_content := st.current_content ++ [text] }
      else st
  | .table rows =>
    match st.current_template with
    | some _ =>
      if st.current_section ≠ "" then
        { st with current_content := st.current_content ++ [table_to_markdown rows] }
      else st
    | none => st

/-- The flush performed when the scan hits the next `TEMPLATE ONLY` marker:
the open section is recorded whenever a template is in progress and a section
is open (its body may be empty), and the in-progress template is appended. -/
def finalizeMarker (st : ScanState) : List TemplateData :=
  match st.current_template with
  | some ct =>
    let ct := if st.current_section ≠ "" then
        saveSection ct st.current_section st.current_content
      else ct
    st.templates_data ++ [ct]
  | none => st.templates_data

/-- The flush performed at end of document: the open section is recorded only
when its accumulated body is non-empty, and the in-progress template is
appended. -/
def finalizeEOD (st : ScanState) : List TemplateData :=
  match st.current_template with
  | some ct =>
    let ct := if st.current_section ≠ "" ∧ st.current_content ≠ [] then
        saveSection ct st.current_section st.current_content
      else ct
    st.templates_data ++ [ct]
  | none => st.templates_data

/-- The scan loop of `_parse_template_section`: consume elements until the
next marker (returned unconsumed, as in the Python index bookkeeping) or the
end of the document.  The Python function also receives the variation label,
which it never reads. -/
def parseLoop (st : ScanState) :
    List BodyElement → List TemplateData × List BodyElement
  | [] => (finalizeEOD st, [])
  | e :: rest =>
    if isMarker e then (finalizeMarker st, e :: rest)
    else parseLoop (stepElement st e) rest

/-- `TemplateExtractor._parse_template_section` from a fresh scanner state. -/
def parse_template_section (elements : List BodyElement) :
    List TemplateData × List BodyElement :=
  parseLoop initScan elements

/-- Comparison of `(key, value)` pairs as Python's `sorted` compares tuples
of strings. -/
def pairLe (a b : String × String) : Bool :=
  if a.1 = b.1 then decide (a.2 ≤ b.2) else decide (a.1 < b.1)

/-- Insertion into a sorted list of `(key, value)` pairs. -/
def insertSorted (x : String × String) :
    List (String × String) → List (String × String)
  | [] => [x]
  | y :: ys => if pairLe x y then x :: y :: ys else y :: insertSorted x ys

/-- `tuple(sorted(sections.items()))` of the dedup key. -/
def sortedItems (l : List (String × String)) : List (String × String) :=
  l.foldr insertSorted []

/-- The dedup key `(name, variation, tuple(sorted(sections.items())))`. -/
abbrev DedupKey := String × String × List (String × String)

/-- `f"template_{template_id:03d}"`. -/
def template_id_string (n : ℕ) : String :=
  "template_" ++
    (if n < 10 then "00" ++ toString n
     else if n < 100 then "0" ++ toString n
     else toString n)

/-- The metadata attached by `extract_from_docx` to each accepted template. -/
def mk_metadata (variation : String) : List (String × String) :=
  [("source", "US Report templates.docx"), ("variation", variation),
   ("extracted_at", "2025-10-28")]

/-- The dedup key of a template data dict under the current variation. -/
def dedupKeyOf (variation : String) (td : TemplateData) : DedupKey :=
  (td.name, variation, sortedItems td.sections)

/-- The deduplicating acceptance loop of `extract_from_docx` over the
template data returned by one `_parse_template_section` call. -/
def acceptTemplates (variation : String) :
    List TemplateData → ℕ → List DedupKey → List Template →
      ℕ × List DedupKey × List Template
  | [], tid, seen, acc => (tid, seen, acc)
  | td :: tds, tid, seen, acc =>
    let key := dedupKeyOf variation td
    if key ∈ seen then acceptTemplates variation tds tid seen acc
    else
      acceptTemplates variation tds (tid + 1) (seen ++ [key])
        (acc ++ [⟨template_id_string tid, td.name, td.sections, mk_metadata variation⟩])

/-- The outer marker-seeking loop of `TemplateExtractor.extract_from_docx`,
run with explicit fuel.  Every loop iteration consumes at least one element
(`parseLoop` only ever returns a suffix of its input), so fuel equal to the
element count — as supplied by `extract_from_docx` — never runs out; the
structural recursion on fuel makes the function evaluate by definitional
reduction. -/
def extract_loopAux :
    ℕ → List BodyElement → ℕ → List DedupKey → List Template → List Template
  | 0, _, _, _, acc => acc
  | _ + 1, [], _, _, acc => acc
  | fuel + 1, e :: rest, tid, seen, acc =>
    if isMarker e then
      let variation := elementVariation e
      let scanned := parseLoop initScan rest
      let accepted := acceptTemplates variation scanned.1 tid seen acc
      extract_loopAux fuel scanned.2 accepted.1 accepted.2.1 accepted.2.2
    else extract_loopAux fuel rest tid seen acc

/-- `TemplateExtractor.extract_from_docx` on the document's body elements:
ids start at 1, the dedup set and the result start empty. -/
def extract_from_docx (body_elements : List BodyElement) : List Template :=
  extract_loopAux body_elements.length body_elements 1 [] []

/-! ## Report generator (`ReportGenerator`)

The external multimodal model (`OpenRouterClient.generate_response`) is
embedded as an oracle `ℕ → Option String` indexed by the value of the
`llm_call_count` audit counter at the moment of the call; `none` embeds a
transport exception.  The two optional breast-domain text resources are
embedded as `Option String` parameters (`none` embeds a missing file). -/

/-- One part of a multimodal message content list. -/
inductive Part where
  | text (s : String)
  | image_url (ref : String)
deriving DecidableEq, Repr

/-- Message content: a plain string or a list of typed parts. -/
inductive Content where
  | str (s : String)
  | parts (l : List Part)
deriving DecidableEq, Repr

/-- One role-tagged conversation message. -/
structure Msg where
  role : String
  content : Content
deriving DecidableEq, Repr

/-- `OpenRouterClient.create_multimodal_message`: a `user` message carrying
the prompt text (when non-empty) followed by one image part per path. -/
def create_multimodal_message (text : String) (image_paths : List String) : Msg :=
  ⟨"user", .parts ((if text ≠ "" then [Part.text text] else []) ++
    image_paths.map Part.image_url)⟩

/-- The mutable generator state: the persistent conversation history and the
`llm_call_count` audit counter. -/
structure GenState where
  conversation_history : List Msg
  llm_call_count : ℕ
deriving DecidableEq, Repr

/-- `ReportGenerator._get_system_prompt`. -/
def system_prompt : String :=
  "You are an expert radiologist analyzing ultrasound images for medical report generation.\n\nYour task is to analyze ultrasound images and build a comprehensive summary of findings that will be used to generate a structured medical report.\n\nFor each batch of images you receive:\n1. Analyze the anatomical structures, pathology, and any abnormalities visible\n2. Update and maintain a cumulative \"Summary of Findings\" that combines information from all previous batches\n3. Be specific about locations, measurements, characteristics, and clinical significance\n4. Use appropriate medical terminology and standardized descriptions\n5. Maintain consistency across batches - don\x27t contradict previous findings unless new evidence suggests otherwise\n\nWhen generating the final report:\n- Use the provided template structure\n- Fill in each section with relevant findings from your cumulative summary\n- Ensure the report is comprehensive, accurate, and clinically appropriate\n- Follow standard medical reporting conventions\n\nAlways prioritize patient safety and clinical accuracy in your analysis."

/-- `ReportGenerator._create_initial_summary`. -/
def create_initial_summary : String :=
  "SUMMARY OF FINDINGS:\n\nNo images analyzed yet."

/-- `ReportGenerator._update_summary_prompt`. -/
def update_summary_prompt (current_summary : String)
    (batch_number total_batches : ℕ) : String :=
  "Please analyze this batch of ultrasound images (batch " ++
    toString batch_number ++ " of " ++ toString total_batches ++
    ") and update the cumulative Summary of Findings.\n\nCURRENT SUMMARY OF FINDINGS:\n" ++
    current_summary ++
    "\n\nINSTRUCTIONS:\n1. Analyze all images in this batch for anatomical structures, abnormalities, and clinical findings\n2. Update the Summary of Findings to incorporate new information from this batch\n3. Maintain all relevant findings from previous batches\n4. Organize findings by anatomical region and clinical significance\n5. Be specific about locations, sizes, characteristics, and implications\n6. If this is the final batch, ensure the summary is complete and ready for report generation\n\nProvide your response as an updated \"SUMMARY OF FINDINGS\" section only."

/-- Lower-case hexadecimal digit, as used by Python's JSON escapes. -/
def hexDigit (n : ℕ) : Char :=
  if n < 10 then Char.ofNat ('0'.toNat + n) else Char.ofNat ('a'.toNat + n - 10)

/-- JSON string escaping of one character as `json.dumps` performs it for
the escapes occurring in this repository's data (quote, backslash, newline,
tab, carriage return, other control characters). -/
def jsonEscapeChar (c : Char) : List Char :=
  if c = '"' then ['\\', '"']
  else if c = '\\' then ['\\', '\\']
  else if c = '\n' then ['\\', 'n']
  else if c = '\t' then ['\\', 't']
  else if c = '\r' then ['\\', 'r']
  else if c.toNat < 0x20 then
    ['\\', 'u', '0', '0', hexDigit (c.toNat / 16), hexDigit (c.toNat % 16)]
  else [c]

/-- JSON string escaping as `json.dumps` performs it. -/
def jsonEscape (s : String) : String := ⟨s.data.flatMap jsonEscapeChar⟩

/-- `json.dumps(template.sections, indent=2)`. -/
def json_dumps_sections (sections : List (String × String)) : String :=
  match sections with
  | [] => "\x7b\x7d"
  | _ =>
    "\x7b\n" ++
      pyIntercalate ",\n" (sections.map fun p =>
        "  \"" ++ jsonEscape p.1 ++ "\": \"" ++ jsonEscape p.2 ++ "\"") ++
      "\n\x7d"

/-- `ReportGenerator._create_final_report_prompt`, with the content of the
optional `breast_case_few_shot.txt` resource passed as `few_shot_file`. -/
def create_final_report_prompt (few_shot_file : Option String)
    (summary : String) (template : Template) (template_name : String)
    (prior_report : Option String) : String :=
  let template_structure := json_dumps_sections template.sections
  let few_shot_examples :=
    if strContains (pyUpper template_name) "BREAST" then
      match few_shot_file with
      | some examples =>
        "\n\nFEW-SHOT EXAMPLES:\nHere are examples of well-formatted breast ultrasound reports for reference:\n\n" ++
          examples ++
          "\n\nPlease follow similar formatting, structure, and clinical terminology as shown in these examples.\n"
      | none => ""
    else ""
  let prior_report_section :=
    match prior_report with
    | some pr => "\n\n---PRIOR REPORT---\n" ++ pr ++ "\n---END PRIOR REPORT---\n"
    | none => ""
  let prior_report_instruction :=
    match prior_report with
    | some _ => " AND the prior report provided above"
    | none => ""
  "Using the cumulative Summary of Findings below, generate a complete ultrasound report following the provided template structure." ++
    few_shot_examples ++ prior_report_section ++
    "\n\nSUMMARY OF FINDINGS:\n" ++ summary ++
    "\n\nTEMPLATE STRUCTURE:\n" ++ template_structure ++
    "\n\nINSTRUCTIONS:\n1. Fill in each section of the template with relevant clinical information from the Summary of Findings\n2. Use appropriate medical terminology and formatting\n3. Ensure clinical accuracy and completeness\n4. Follow standard medical reporting conventions\n5. If a section has no relevant findings, indicate \"No significant findings\" or similar appropriate text\n6. Generate a professional, comprehensive medical report\n" ++
    (match prior_report with
     | some _ => "7. Compare findings with the prior report and explicitly note any significant changes, new findings, or stability compared to the prior study."
     | none => "") ++
    "\n\nBased on the provided examples, the cumulative summary of findings, the report template" ++
    prior_report_instruction ++
    ", generate a complete, narrative clinical report." ++
    (match prior_report with
     | some _ => " Explicitly note any significant changes, new findings, or stability compared to the prior study."
     | none => "") ++
    " Your response MUST strictly follow the structure, sentence structure (e.g. if the examples wrote \"Findings are likely benign and can represent mild changes of mammary duct ectasia.\", reuse this sentence instead of reporting in other ways like \"There is evidence of subareolar ductal ectasia.\"), narrative style, and formatting of the examples. Do NOT use markdown formatting like bolding (\x27**\x27) for emphasis. The output should be a clean plain-text document. Do NOT return JSON format - provide only the clean narrative text report."

/-- `response.split("SUMMARY OF FINDINGS:", 1)[1]`: everything after the
first occurrence of the marker (defined under the guard that the marker
occurs). -/
def split_after_first (s pat : String) : String :=
  match afterFirstAux pat.data s.data with
  | some suffix => String.mk suffix
  | none => ""

/-- `ReportGenerator.process_images_batch`.  The call counter is incremented
before the model invocation, so a failed invocation (`oracle` returning
`none`) is still counted; on failure the current summary is returned
unchanged and no assistant message is appended. -/
def process_images_batch (oracle : ℕ → Option String)
    (breast_prompt_file : Option String) (image_paths : List String)
    (current_summary : String) (batch_number total_batches : ℕ)
    (template_name : String) (st : GenState) : String × GenState :=
  if image_paths = [] then (current_summary, st)
  else
    let prompt := update_summary_prompt current_summary batch_number total_batches
    let message := create_multimodal_message prompt image_paths
    let st :=
      if batch_number = 1 ∧ strContains (pyUpper template_name) "BREAST" = true then
        match breast_prompt_file with
        | some breast_prompt =>
          { st with conversation_history :=
              st.conversation_history ++ [⟨"user", .str breast_prompt⟩] }
        | none => st
      else st
    let st := { st with conversation_history := st.conversation_history ++ [message] }
    let call_index := st.llm_call_count
    let st := { st with llm_call_count := call_index + 1 }
    match oracle call_index with
    | none => (current_summary, st)
    | some response =>
      let st := { st with conversation_history :=
          st.conversation_history ++ [⟨"assistant", .str response⟩] }
      let updated_summary :=
        if strContains response "SUMMARY OF FINDINGS:" then
          "SUMMARY OF FINDINGS:" ++ pyStrip (split_after_first response "SUMMARY OF FINDINGS:")
        else pyStrip response
      (updated_summary, st)

/-- The `for batch_num, batch_images in enumerate(batches, 1)` loop of
`generate_report`. -/
def runBatches (oracle : ℕ → Option String) (breast_prompt_file : Option String)
    (template_name : String) (total_batches : ℕ) :
    List (List String) → ℕ → String → GenState → String × GenState
  | [], _, summ, st => (summ, st)
  | batch :: rest, batch_num, summ, st =>
    let r := process_images_batch oracle breast_prompt_file batch summ
      batch_num total_batches template_name st
    runBatches oracle breast_prompt_file template_name total_batches rest
      (batch_num + 1) r.1 r.2

/-- The slicing loop of the batch comprehension, run with explicit fuel;
each slice consumes at least one element when the batch size is positive, so
fuel equal to the list length — as supplied by `chunkList` — never runs
out. -/
def chunkListAux {α : Type} : ℕ → ℕ → List α → List (List α)
  | 0, _, _ => []
  | fuel + 1, batch_size, xs =>
    if xs.isEmpty = true ∨ batch_size = 0 then []
    else xs.take batch_size :: chunkListAux fuel batch_size (xs.drop batch_size)

/-- `[image_paths[i:i + batch_size] for i in range(0, len(image_paths), batch_size)]`
(for a zero `batch_size`, where Python's `range` raises, the result is
conventionally `[]`; every claim assumes a positive batch size). -/
def chunkList {α : Type} (batch_size : ℕ) (xs : List α) : List (List α) :=
  chunkListAux xs.length batch_size xs

/-- The failure modes of `generate_report`: the `ValueError` raised on an
empty image list (the spec's `EmptyInputError`) and a failing final model
call (the spec's `SynthesisError`). -/
inductive GenError where
  | emptyInput
  | synthesis
deriving DecidableEq, Repr

/-- `ReportGenerator.generate_report`: returns the report text together with
the final `llm_call_count`, or the error that aborted the run. -/
def generate_report (oracle : ℕ → Option String)
    (breast_prompt_file few_shot_file : Option String) (batch_size : ℕ)
    (image_paths : List String) (template : Template)
    (template_name_arg : String) (prior_report : Option String) :
    Except GenError (String × ℕ) :=
  if image_paths = [] then .error .emptyInput
  else
    let template_name :=
      if template_name_arg = "" then template.name else template_name_arg
    let st : GenState :=
      { conversation_history := [⟨"system", Content.str system_prompt⟩]
        llm_call_count := 0 }
    let batches := chunkList batch_size image_paths
    let total_batches := batches.length
    let current_summary := create_initial_summary
    let r := runBatches oracle breast_prompt_file template_name total_batches
      batches 1 current_summary st
    let final_prompt := create_final_report_prompt few_shot_file r.1 template
      template_name prior_report
    let st := { r.2 with conversation_history :=
        r.2.conversation_history ++ [Msg.mk "user" (Content.str final_prompt)] }
    let call_index := st.llm_call_count
    let st := { st with llm_call_count := call_index + 1 }
    match oracle call_index with
    | some report_text => .ok (report_text, st.llm_call_count)
    | none => .error .synthesis

/-! ## Concrete fixtures used by witnesses and counterexamples -/

/-- A 23-image case (the spec's end-to-end example sizes). -/
def imgs23 : List String := (List.range 23).map toString

/-- A minimal template fixture. -/
def tmplX : Template :=
  ⟨"template_001", "TEMPLATE X", [("FINDINGS", "body")], [("source", "test")]⟩

/-- A catalog holding exactly the bilateral breast-ultrasound template. -/
def catUS : TemplateManager :=
  load_templates
    [⟨"template_001", "ULTRASOUND OF BOTH BREASTS",
      [("FINDINGS", "template body")], [("source", "test")]⟩]

/-- A catalog whose single entry's name differs from the canonical
breast-ultrasound name (for exercising the fuzzy fallback). -/
def catNear : TemplateManager :=
  load_templates
    [⟨"template_001", "ULTRASOUND OF BOTH BREAST",
      [("FINDINGS", "template body")], [("source", "test")]⟩]

/-- An always-succeeding model oracle. -/
def oracleOK : ℕ → Option String := fun _ => some "REPORT TEXT"

/-- A model oracle whose second call (the second batch) fails. -/
def oracleFail2 : ℕ → Option String :=
  fun k => if k = 1 then none else some "SUMMARY OF FINDINGS: ok"

/-- A document whose two `TEMPLATE ONLY` sections carry different variation
labels but textually identical template bodies. -/
def docTwoVariations : List BodyElement :=
  [.para "TEMPLATE ONLY (A)",
   .para "ULTRASOUND OF BOTH BREASTS",
   .para "FINDINGS:",
   .para "Normal study.",
   .para "TEMPLATE ONLY (B)",
   .para "ULTRASOUND OF BOTH BREASTS",
   .para "FINDINGS:",
   .para "Normal study."]

/-- A scanner state with a template in progress and an open section with
accumulated body, about to be interrupted. -/
def danglingState : ScanState :=
  { templates_data := []
    current_template := some ⟨"ULTRASOUND OF BOTH BREASTS", []⟩
    current_section := "FINDINGS"
    current_content := ["Normal study."]
    main_heading := "ULTRASOUND OF BOTH BREASTS" }

/-! ## Verification helper definitions -/

/-- Fieldwise disjunction of two feature dictionaries; `parseStep` only ever
raises flags, so its effect decomposes through this merge. -/
def mergeInfo (a b : ParseInfo) : ParseInfo :=
  ⟨a.has_us_breast || b.has_us_breast,
   a.has_us_breast_bilateral || b.has_us_breast_bilateral,
   a.has_us_breast_right || b.has_us_breast_right,
   a.has_us_breast_left || b.has_us_breast_left,
   a.has_mg_2d || b.has_mg_2d,
   a.has_mg_3d || b.has_mg_3d,
   a.has_mg_bilateral || b.has_mg_bilateral,
   a.has_mg_right || b.has_mg_right,
   a.has_mg_left || b.has_mg_left⟩

/-- Loop invariant of the candidate fold in `_fuzzy_fallback`: either no
candidate reached the threshold yet (and the best score is still the initial
zero), or the best pair records a processed candidate of maximal score that
reached the threshold. -/
def FuzzyInv (ratio : String → String → ℕ) (m : TemplateManager)
    (target : String) (processed : List String)
    (best : Option Template × ℚ) : Prop :=
  (best = (none, 0) ∧ ∀ n ∈ processed, fuzzyScore ratio target n < 80 / 100) ∨
  (∃ nb ∈ processed, best.1 = get_template_by_name m nb ∧
    best.2 = fuzzyScore ratio target nb ∧ (80 : ℚ) / 100 ≤ best.2 ∧
    ∀ n ∈ processed, fuzzyScore ratio target n ≤ best.2)

/-- The variation label recorded in a template's metadata. -/
def variationOf (t : Template) : String :=
  (dictFind t.metadata "variation").getD ""

/-- The dedup key recoverable from an accepted template. -/
def templateKey (t : Template) : DedupKey :=
  (t.name, variationOf t, sortedItems t.sections)

/-! # Theorems -/

/-! ## C7: persistence round-trip -/

theorem load_foldl_templates (rs : List TemplateRecord) (st : TemplateManager) :
    (List.foldl loadStep st rs).templates =
      st.templates ++ rs.map (fun r => ⟨r.id, r.name, r.sections, r.metadata⟩) := by
  induction rs generalizing st with
  | nil => simp
  | cons r rs ih => simp [loadStep, ih, List.append_assoc]

/-- C7: persisting any list of Templates with `save_to_json` and reloading
the persisted records with the catalog loader yields Template values equal
to the originals (same id, name, sections and metadata). -/
theorem save_load_round_trip (ts : List Template) :
    get_all_templates (load_templates (save_to_json ts)) = ts := by
  simp only [get_all_templates, load_templates, save_to_json,
    load_foldl_templates, List.map_map, List.nil_append]
  have hid : ((fun r : TemplateRecord =>
        (⟨r.id, r.name, r.sections, r.metadata⟩ : Template)) ∘
      fun t : Template =>
        (⟨t.id, t.name, t.sections, t.metadata⟩ : TemplateRecord)) = id :=
    funext fun t => rfl
  rw [hid, List.map_id]

/-! ## C8: empty input fails fast -/

/-- C8: `generate_report` on an empty image list fails with the empty-input
error; the result does not depend on the model oracle, so no model invocation
is made. -/
theorem generate_report_empty_input (oracle : ℕ → Option String)
    (bp fs : Option String) (B : ℕ) (tmpl : Template) (tn : String)
    (prior : Option String) :
    generate_report oracle bp fs B [] tmpl tn prior = .error .emptyInput := by
  simp [generate_report]

/-! ## C9: dangling open section is flushed -/

/-- C9: when the inner template scan reaches the end of the document, or the
next section marker, while a template is in progress with an open section and
accumulated body, the in-progress template — including that section body — is
flushed into the scan's result. -/
theorem dangling_template_flushed (st : ScanState) (ct : TemplateData)
    (e : BodyElement) (rest : List BodyElement)
    (hct : st.current_template = some ct)
    (hsec : st.current_section ≠ "")
    (hcontent : st.current_content ≠ []) :
    parseLoop st [] =
      (st.templates_data ++ [saveSection ct st.current_section st.current_content], []) ∧
    (isMarker e = true →
      parseLoop st (e :: rest) =
        (st.templates_data ++ [saveSection ct st.current_section st.current_content],
         e :: rest)) := by
  constructor
  · simp [parseLoop, finalizeEOD, hct, hsec, hcontent]
  · intro hmark
    simp [parseLoop, finalizeMarker, hct, hsec, hmark]

theorem dangling_template_flushed_witness :
    parseLoop danglingState [] =
      (danglingState.templates_data ++
        [saveSection ⟨"ULTRASOUND OF BOTH BREASTS", []⟩ danglingState.current_section
          danglingState.current_content], []) ∧
    (isMarker (.para "TEMPLATE ONLY (B)") = true →
      parseLoop danglingState [.para "TEMPLATE ONLY (B)"] =
        (danglingState.templates_data ++
          [saveSection ⟨"ULTRASOUND OF BOTH BREASTS", []⟩ danglingState.current_section
            danglingState.current_content],
         [.para "TEMPLATE ONLY (B)"])) :=
  dangling_template_flushed danglingState ⟨"ULTRASOUND OF BOTH BREASTS", []⟩
    (.para "TEMPLATE ONLY (B)") [] (by decide) (by decide) (by decide)

/-! ## C10: duplicate names at catalog load -/

/-- C10: loading a source with two records sharing a name but with distinct
ids succeeds; both loaded templates appear in the `templates` list and are
retrievable by id, while the by-name lookup returns the record occurring
later in source order (last-writer-wins). -/
theorem load_duplicate_names (r1 r2 : TemplateRecord)
    (hname : r1.name = r2.name) (hid : r1.id ≠ r2.id) :
    get_all_templates (load_templates [r1, r2]) =
      [⟨r1.id, r1.name, r1.sections, r1.metadata⟩,
       ⟨r2.id, r2.name, r2.sections, r2.metadata⟩] ∧
    get_template_by_id (load_templates [r1, r2]) r1.id =
      some ⟨r1.id, r1.name, r1.sections, r1.metadata⟩ ∧
    get_template_by_id (load_templates [r1, r2]) r2.id =
      some ⟨r2.id, r2.name, r2.sections, r2.metadata⟩ ∧
    get_template_by_name (load_templates [r1, r2]) r1.name =
      some ⟨r2.id, r2.name, r2.sections, r2.metadata⟩ := by
  refine ⟨?_, ?_, ?_, ?_⟩ <;>
    simp [get_all_templates, get_template_by_id, get_template_by_name,
      load_templates, loadStep, dictInsert, dictFind, hname, hid, Ne.symm hid]

theorem load_duplicate_names_witness :
    get_all_templates (load_templates
        [⟨"id1", "N", [], []⟩, ⟨"id2", "N", [("a", "b")], []⟩]) =
      [⟨"id1", "N", [], []⟩, ⟨"id2", "N", [("a", "b")], []⟩] ∧
    get_template_by_id (load_templates
        [⟨"id1", "N", [], []⟩, ⟨"id2", "N", [("a", "b")], []⟩]) "id1" =
      some ⟨"id1", "N", [], []⟩ ∧
    get_template_by_id (load_templates
        [⟨"id1", "N", [], []⟩, ⟨"id2", "N", [("a", "b")], []⟩]) "id2" =
      some ⟨"id2", "N", [("a", "b")], []⟩ ∧
    get_template_by_name (load_templates
        [⟨"id1", "N", [], []⟩, ⟨"id2", "N", [("a", "b")], []⟩]) "N" =
      some ⟨"id2", "N", [("a", "b")], []⟩ :=
  load_duplicate_names ⟨"id1", "N", [], []⟩ ⟨"id2", "N", [("a", "b")], []⟩
    (by decide) (by decide)

/-! ## C1, C2: batch accounting and batch-failure recovery -/

theorem process_images_batch_count (oracle : ℕ → Option String) (bp : Option String)
    (paths : List String) (summ : String) (bn tb : ℕ) (tn : String) (st : GenState)
    (h : paths ≠ []) :
    (process_images_batch oracle bp paths summ bn tb tn st).2.llm_call_count =
      st.llm_call_count + 1 := by
  simp only [process_images_batch, if_neg h]
  by_cases hb : bn = 1 ∧ strContains (pyUpper tn) "BREAST" = true
  · cases bp with
    | none =>
      simp only [hb, if_true, if_pos]
      cases horacle : oracle st.llm_call_count <;> simp [horacle]
    | some p =>
      simp only [hb, if_true, if_pos]
      cases horacle : oracle st.llm_call_count <;> simp [horacle]
  · simp only [if_neg hb]
    cases horacle : oracle st.llm_call_count <;> simp [horacle]

theorem runBatches_count (oracle : ℕ → Option String) (bp : Option String)
    (tn : String) (tb : ℕ) :
    ∀ (bs : List (List String)) (bn : ℕ) (summ : String) (st : GenState),
      (∀ b ∈ bs, b ≠ []) →
      (runBatches oracle bp tn tb bs bn summ st).2.llm_call_count =
        st.llm_call_count + bs.length := by
  intro bs
  induction bs with
  | nil => intro bn summ st _; simp [runBatches]
  | cons b rest ih =>
    intro bn summ st hne
    have hb : b ≠ [] := hne b (by simp)
    have hrest : ∀ x ∈ rest, x ≠ [] := fun x hx => hne x (by simp [hx])
    simp only [runBatches]
    rw [ih _ _ _ hrest, process_images_batch_count _ _ _ _ _ _ _ _ hb]
    simp only [List.length_cons]
    omega

theorem chunkListAux_length {α : Type} (B : ℕ) (hB : 0 < B) :
    ∀ (fuel : ℕ) (xs : List α), xs.length ≤ fuel →
      (chunkListAux fuel B xs).length = (xs.length + B - 1) / B := by
  intro fuel
  induction fuel with
  | zero =>
    intro xs hle
    have hxs : xs = [] := List.eq_nil_of_length_eq_zero (Nat.le_zero.mp hle)
    subst hxs
    simp [chunkListAux, Nat.div_eq_of_lt (by omega : B - 1 < B)]
  | succ fuel ih =>
    intro xs hle
    rw [chunkListAux]
    by_cases hx : xs.isEmpty = true ∨ B = 0
    · rcases hx with hx | hx
      · have hxs : xs = [] := List.isEmpty_iff.mp hx
        subst hxs
        simp [hx, Nat.div_eq_of_lt (by omega : B - 1 < B)]
      · omega
    · rw [if_neg hx]
      have hne : xs ≠ [] := by
        intro he; exact hx (Or.inl (List.isEmpty_iff.mpr he))
      have hpos : 0 < xs.length := List.length_pos.mpr hne
      have hdrop : (xs.drop B).length = xs.length - B := List.length_drop B xs
      rw [List.length_cons, ih (xs.drop B) (by omega), hdrop]
      have h2 : xs.length + B - 1 = (xs.length - 1) + B := by omega
      rw [h2, Nat.add_div_right _ hB]
      rcases le_total xs.length B with hc | hc
      · have e1 : xs.length - B + B - 1 = B - 1 := by omega
        rw [e1, Nat.div_eq_of_lt (by omega), Nat.div_eq_of_lt (by omega)]
      · have e1 : xs.length - B + B - 1 = xs.length - 1 := by omega
        rw [e1]

theorem chunkList_length {α : Type} (B : ℕ) (hB : 0 < B) (xs : List α) :
    (chunkList B xs).length = (xs.length + B - 1) / B :=
  chunkListAux_length B hB xs.length xs (Nat.le_refl _)

theorem chunkListAux_mem_ne_nil {α : Type} (B : ℕ) (hB : 0 < B) :
    ∀ (fuel : ℕ) (xs : List α), ∀ b ∈ chunkListAux fuel B xs, b ≠ [] := by
  intro fuel
  induction fuel with
  | zero => intro xs b hb; simp [chunkListAux] at hb
  | succ fuel ih =>
    intro xs b hb
    rw [chunkListAux] at hb
    by_cases hx : xs.isEmpty = true ∨ B = 0
    · rw [if_pos hx] at hb; simp at hb
    · rw [if_neg hx] at hb
      have hne : xs ≠ [] := by
        intro he; exact hx (Or.inl (List.isEmpty_iff.mpr he))
      rcases List.mem_cons.mp hb with hb | hb
      · subst hb
        simp only [ne_eq, List.take_eq_nil_iff]
        push_neg
        exact ⟨by omega, hne⟩
      · exact ih _ b hb

theorem chunkList_mem_ne_nil {α : Type} (B : ℕ) (hB : 0 < B) (xs : List α) :
    ∀ b ∈ chunkList B xs, b ≠ [] :=
  chunkListAux_mem_ne_nil B hB xs.length xs

theorem generate_report_run (oracle : ℕ → Option String) (bp fs : Option String)
    (B : ℕ) (images : List String) (tmpl : Template) (tn : String)
    (prior : Option String) (himg : images ≠ []) (hB : 0 < B) :
    generate_report oracle bp fs B images tmpl tn prior =
      match oracle ((chunkList B images).length) with
      | some rpt => .ok (rpt, (chunkList B images).length + 1)
      | none => .error .synthesis := by
  simp only [generate_report, if_neg himg]
  rw [runBatches_count oracle bp _ _ _ _ _ _ (chunkList_mem_ne_nil B hB images)]
  simp only [Nat.zero_add]

/-- C1: for a non-empty image list and positive batch size, any successful
run of `generate_report` returns an `llm_call_count` equal to
`ceil(N / B) + 1 = (N + B - 1) / B + 1`: one model invocation per batch plus
one final synthesis invocation. -/
theorem generate_report_call_count (oracle : ℕ → Option String) (bp fs : Option String)
    (B : ℕ) (images : List String) (tmpl : Template) (tn : String)
    (prior : Option String) (text : String) (count : ℕ)
    (himg : images ≠ []) (hB : 0 < B)
    (hok : generate_report oracle bp fs B images tmpl tn prior = .ok (text, count)) :
    count = (images.length + B - 1) / B + 1 ∧
      (chunkList B images).length = (images.length + B - 1) / B := by
  rw [generate_report_run oracle bp fs B images tmpl tn prior himg hB] at hok
  cases horacle : oracle ((chunkList B images).length) with
  | none => rw [horacle] at hok; exact absurd hok (by simp)
  | some rpt =>
    rw [horacle] at hok
    simp only [Except.ok.injEq, Prod.mk.injEq] at hok
    exact ⟨by rw [← hok.2, chunkList_length B hB images], chunkList_length B hB images⟩

theorem generate_report_call_count_witness :
    (4 : ℕ) = (imgs23.length + 10 - 1) / 10 + 1 ∧
      (chunkList 10 imgs23).length = (imgs23.length + 10 - 1) / 10 :=
  generate_report_call_count oracleOK none none 10 imgs23 tmplX "X" none
    "REPORT TEXT" 4 (by decide) (by decide) (by rfl)

/-- C2: a failed batch model invocation leaves the summary of findings
unchanged while still incrementing `llm_call_count` (first conjunct, at the
batch processor); and regardless of which batch invocations fail, the run
still executes every batch and reaches the final synthesis call, succeeding
whenever that final call succeeds (second conjunct, at the generator). -/
theorem batch_failure_recovery :
    (∀ (oracle : ℕ → Option String) (bp : Option String) (paths : List String)
        (summ : String) (bn tb : ℕ) (tn : String) (st : GenState),
      paths ≠ [] → oracle st.llm_call_count = none →
      (process_images_batch oracle bp paths summ bn tb tn st).1 = summ ∧
      (process_images_batch oracle bp paths summ bn tb tn st).2.llm_call_count =
        st.llm_call_count + 1) ∧
    (∀ (oracle : ℕ → Option String) (bp fs : Option String) (B : ℕ)
        (images : List String) (tmpl : Template) (tn : String)
        (prior : Option String) (rpt : String),
      images ≠ [] → 0 < B →
      oracle ((chunkList B images).length) = some rpt →
      generate_report oracle bp fs B images tmpl tn prior =
        .ok (rpt, (chunkList B images).length + 1)) := by
  constructor
  · intro oracle bp paths summ bn tb tn st h hfail
    refine ⟨?_, process_images_batch_count oracle bp paths summ bn tb tn st h⟩
    simp only [process_images_batch, if_neg h]
    by_cases hb : bn = 1 ∧ strContains (pyUpper tn) "BREAST" = true
    · cases bp with
      | none => simp [hb, hfail]
      | some p => simp [hb, hfail]
    · simp [hb, hfail]
  · intro oracle bp fs B images tmpl tn prior rpt himg hB hfinal
    rw [generate_report_run oracle bp fs B images tmpl tn prior himg hB, hfinal]

theorem batch_failure_recovery_witness :
    ((process_images_batch (fun _ => none) none ["img.png"] "S" 1 1 "T" ⟨[], 0⟩).1 = "S" ∧
     (process_images_batch (fun _ => none) none ["img.png"] "S" 1 1 "T" ⟨[], 0⟩).2.llm_call_count =
       (0 : ℕ) + 1) ∧
    generate_report oracleFail2 none none 10 imgs23 tmplX "X" none =
      .ok ("SUMMARY OF FINDINGS: ok", (chunkList 10 imgs23).length + 1) :=
  ⟨batch_failure_recovery.1 (fun _ => none) none ["img.png"] "S" 1 1 "T" ⟨[], 0⟩
      (by decide) (by rfl),
   batch_failure_recovery.2 oracleFail2 none none 10 imgs23 tmplX "X" none
      "SUMMARY OF FINDINGS: ok" (by decide) (by decide) (by rfl)⟩

/-! ## C3, C5: selector feature derivation and priority -/

theorem parseStepUS_merge (info : ParseInfo) (u : String) :
    parseStepUS info u = mergeInfo info (parseStepUS initInfo u) := by
  rcases info with ⟨a, b, c, d, e, f, g, h, i⟩
  simp only [parseStepUS, initInfo, mergeInfo]
  split_ifs <;> simp

theorem parseStepMG_merge (info : ParseInfo) (u : String) :
    parseStepMG info u = mergeInfo info (parseStepMG initInfo u) := by
  rcases info with ⟨a, b, c, d, e, f, g, h, i⟩
  simp only [parseStepMG, initInfo, mergeInfo]
  split_ifs <;> simp

theorem mergeInfo_comm (a b : ParseInfo) : mergeInfo a b = mergeInfo b a := by
  rcases a with ⟨a1, a2, a3, a4, a5, a6, a7, a8, a9⟩
  rcases b with ⟨b1, b2, b3, b4, b5, b6, b7, b8, b9⟩
  simp [mergeInfo, Bool.or_comm]

theorem mergeInfo_assoc (a b c : ParseInfo) :
    mergeInfo (mergeInfo a b) c = mergeInfo a (mergeInfo b c) := by
  rcases a with ⟨a1, a2, a3, a4, a5, a6, a7, a8, a9⟩
  rcases b with ⟨b1, b2, b3, b4, b5, b6, b7, b8, b9⟩
  rcases c with ⟨c1, c2, c3, c4, c5, c6, c7, c8, c9⟩
  simp [mergeInfo, Bool.or_assoc]

theorem mergeInfo_init (a : ParseInfo) : mergeInfo initInfo a = a := by
  rcases a with ⟨a1, a2, a3, a4, a5, a6, a7, a8, a9⟩
  simp [mergeInfo, initInfo]

theorem parseStep_merge (info : ParseInfo) (l : String) :
    parseStep info l = mergeInfo info (parseStep initInfo l) := by
  simp only [parseStep]
  rw [parseStepUS_merge info, parseStepMG_merge (mergeInfo info _),
      parseStepMG_merge (parseStepUS initInfo _), mergeInfo_assoc]

theorem parse_pair_comm (l1 l2 : String) :
    parse_directory_names [l1, l2] = parse_directory_names [l2, l1] := by
  simp only [parse_directory_names, List.foldl_cons, List.foldl_nil]
  rw [parseStep_merge (parseStep initInfo l1) l2,
      parseStep_merge (parseStep initInfo l2) l1, mergeInfo_comm]


theorem strContains_of_trans (s p q : String) (hpq : strContains q p = true)
    (h : strContains s q = true) : strContains s p = true := by
  simp only [strContains, decide_eq_true_eq] at *
  exact hpq.trans h

theorem strContains_false (s p q : String) (hpq : strContains q p = true)
    (h : strContains s p = false) : strContains s q = false := by
  cases hq : strContains s q
  · rfl
  · exact absurd (strContains_of_trans s p q hpq hq) (by simp [h])

/-- C3: for any pair of labels one of which derives the 3D-mammogram flag
and the other the breast-ultrasound flag, the canonical template name is one
of the two combined 3D-mammogram-and-ultrasound names — never the
ultrasound-only name — and selection gives the same result for either
ordering of the two labels. -/
theorem select_prefers_3d_combined (ratio : String → String → ℕ)
    (m : TemplateManager) (l1 l2 : String)
    (h1 : (parse_directory_names [l1]).has_mg_3d = true)
    (h2 : (parse_directory_names [l2]).has_us_breast = true) :
    (determine_template_name (parse_directory_names [l1, l2]) =
        some "DIGITAL 3D MAMMOGRAM & ULTRASOUND OF BOTH BREASTS" ∨
     determine_template_name (parse_directory_names [l1, l2]) =
        some "DIGITAL 3D MAMMOGRAM & ULTRASOUND OF _RIGHT BREAST") ∧
    determine_template_name (parse_directory_names [l1, l2]) ≠
      some "ULTRASOUND OF BOTH BREASTS" ∧
    select_template ratio m [l1, l2] = select_template ratio m [l2, l1] := by
  have hpair : parse_directory_names [l1, l2] =
      mergeInfo (parse_directory_names [l1]) (parse_directory_names [l2]) := by
    simp only [parse_directory_names, List.foldl_cons, List.foldl_nil]
    exact parseStep_merge _ _
  have h3d : (parse_directory_names [l1, l2]).has_mg_3d = true := by
    rw [hpair]
    simp only [parse_directory_names, List.foldl_cons, List.foldl_nil] at h1 h2 ⊢
    simp [mergeInfo, h1]
  have hus : (parse_directory_names [l1, l2]).has_us_breast = true := by
    rw [hpair]
    simp only [parse_directory_names, List.foldl_cons, List.foldl_nil] at h1 h2 ⊢
    simp [mergeInfo, h2]
  have hdisj : determine_template_name (parse_directory_names [l1, l2]) =
      some "DIGITAL 3D MAMMOGRAM & ULTRASOUND OF BOTH BREASTS" ∨
      determine_template_name (parse_directory_names [l1, l2]) =
      some "DIGITAL 3D MAMMOGRAM & ULTRASOUND OF _RIGHT BREAST" := by
    simp only [determine_template_name, hus, h3d, Bool.and_self, if_true]
    split_ifs <;> simp
  refine ⟨hdisj, ?_, ?_⟩
  · rcases hdisj with h | h <;> rw [h] <;> decide
  · have hcomm := parse_pair_comm l1 l2
    simp only [select_template, hcomm]

theorem select_prefers_3d_combined_witness :
    (determine_template_name (parse_directory_names ["MG3D", "US_BREAST"]) =
        some "DIGITAL 3D MAMMOGRAM & ULTRASOUND OF BOTH BREASTS" ∨
     determine_template_name (parse_directory_names ["MG3D", "US_BREAST"]) =
        some "DIGITAL 3D MAMMOGRAM & ULTRASOUND OF _RIGHT BREAST") ∧
    determine_template_name (parse_directory_names ["MG3D", "US_BREAST"]) ≠
      some "ULTRASOUND OF BOTH BREASTS" ∧
    select_template (fun _ _ => 0) catUS ["MG3D", "US_BREAST"] =
      select_template (fun _ _ => 0) catUS ["US_BREAST", "MG3D"] :=
  select_prefers_3d_combined (fun _ _ => 0) catUS "MG3D" "US_BREAST"
    (by decide) (by decide)


/-- C5 counterexample: the label `"BREAST"` contains a breast-ultrasound
token and no laterality token, yet its derived StudyFeatureSet does *not*
mark the breast-ultrasound modality as bilateral — the bilateral default
only fires for labels containing `US_BREAST` or `USBREAST`. -/
theorem us_default_laterality_counterexample :
    strContains (pyUpper "BREAST") "BREAST" = true ∧
    strContains (pyUpper "BREAST") "BILATERAL" = false ∧
    strContains (pyUpper "BREAST") "RIGHT" = false ∧
    strContains (pyUpper "BREAST") "LEFT" = false ∧
    (parse_directory_names ["BREAST"]).has_us_breast = true ∧
    (parse_directory_names ["BREAST"]).has_us_breast_bilateral = false := by
  decide

/-- C5 (amended): for every study label containing a `US_BREAST` or
`USBREAST` token, no laterality token, and no mammogram token, the derived
StudyFeatureSet marks the breast-ultrasound modality as bilateral, and
selection on that single label resolves to the bilateral-named ultrasound
template. -/
theorem us_default_laterality_amended (l : String)
    (ratio : String → String → ℕ) (m : TemplateManager) (t : Template)
    (hus : strContains (pyUpper l) "US_BREAST" = true ∨
           strContains (pyUpper l) "USBREAST" = true)
    (hbil : strContains (pyUpper l) "BILATERAL" = false)
    (hright : strContains (pyUpper l) "RIGHT" = false)
    (hleft : strContains (pyUpper l) "LEFT" = false)
    (hmg : strContains (pyUpper l) "MG" = false)
    (hmam : strContains (pyUpper l) "MAMMOGRAM" = false)
    (hcat : get_template_by_name m "ULTRASOUND OF BOTH BREASTS" = some t) :
    (parse_directory_names [l]).has_us_breast_bilateral = true ∧
    determine_template_name (parse_directory_names [l]) =
      some "ULTRASOUND OF BOTH BREASTS" ∧
    select_template ratio m [l] = some t := by
  have hbreast : strContains (pyUpper l) "BREAST" = true := by
    rcases hus with hu | hu
    · exact strContains_of_trans _ "BREAST" "US_BREAST" (by decide) hu
    · exact strContains_of_trans _ "BREAST" "USBREAST" (by decide) hu
  have hbilp : strContains (pyUpper l) "(BILATERAL)" = false :=
    strContains_false _ "BILATERAL" "(BILATERAL)" (by decide) hbil
  have hrightp : strContains (pyUpper l) "(RIGHT)" = false :=
    strContains_false _ "RIGHT" "(RIGHT)" (by decide) hright
  have hleftp : strContains (pyUpper l) "(LEFT)" = false :=
    strContains_false _ "LEFT" "(LEFT)" (by decide) hleft
  have hmmg : strContains (pyUpper l) "MMG" = false :=
    strContains_false _ "MG" "MMG" (by decide) hmg
  have h1 : parse_directory_names [l] =
      ⟨true, true, false, false, false, false, false, false, false⟩ := by
    simp only [parse_directory_names, List.foldl_cons, List.foldl_nil,
      parseStep, parseStepUS, parseStepMG]
    rcases hus with hu | hu <;>
      simp [hbreast, hbil, hbilp, hright, hrightp, hleft, hleftp, hu,
        hmg, hmmg, hmam, initInfo]
  have hdet : determine_template_name (parse_directory_names [l]) =
      some "ULTRASOUND OF BOTH BREASTS" := by
    rw [h1]; rfl
  refine ⟨by rw [h1], hdet, ?_⟩
  simp only [select_template, hdet, hcat]

theorem us_default_laterality_amended_witness :
    (parse_directory_names ["US_BREAST"]).has_us_breast_bilateral = true ∧
    determine_template_name (parse_directory_names ["US_BREAST"]) =
      some "ULTRASOUND OF BOTH BREASTS" ∧
    select_template (fun _ _ => 0) catUS ["US_BREAST"] =
      some ⟨"template_001", "ULTRASOUND OF BOTH BREASTS",
        [("FINDINGS", "template body")], [("source", "test")]⟩ :=
  us_default_laterality_amended "US_BREAST" (fun _ _ => 0) catUS
    ⟨"template_001", "ULTRASOUND OF BOTH BREASTS",
      [("FINDINGS", "template body")], [("source", "test")]⟩
    (Or.inl (by decide)) (by decide) (by decide) (by decide) (by decide)
    (by decide) (by rfl)

/-! ## C4: fuzzy fallback threshold -/

theorem fuzzy_foldl_inv (ratio : String → String → ℕ) (m : TemplateManager)
    (target : String) :
    ∀ (names : List String) (processed : List String) (best : Option Template × ℚ),
      FuzzyInv ratio m target processed best →
      FuzzyInv ratio m target (processed ++ names)
        (names.foldl (fuzzyStep ratio m target) best) := by
  intro names
  induction names with
  | nil => intro processed best h; simpa using h
  | cons n rest ih =>
    intro processed best h
    have hstep : FuzzyInv ratio m target (processed ++ [n])
        (fuzzyStep ratio m target best n) := by
      unfold fuzzyStep
      by_cases hc : best.2 < fuzzyScore ratio target n ∧
          (80 : ℚ) / 100 ≤ fuzzyScore ratio target n
      · rw [if_pos hc]
        right
        refine ⟨n, by simp, rfl, rfl, hc.2, ?_⟩
        intro x hx
        rcases List.mem_append.mp hx with hx | hx
        · rcases h with ⟨_, hall⟩ | ⟨nb, _, _, hsc, _, hall⟩
          · exact le_of_lt (lt_of_lt_of_le (hall x hx) hc.2)
          · exact le_of_lt (lt_of_le_of_lt (hall x hx) hc.1)
        · simp only [List.mem_singleton] at hx
          subst hx
          exact le_refl _
      · rw [if_neg hc]
        rcases h with ⟨hbest, hall⟩ | ⟨nb, hnb, hb1, hsc, hth, hall⟩
        · left
          refine ⟨hbest, ?_⟩
          intro x hx
          rcases List.mem_append.mp hx with hx | hx
          · exact hall x hx
          · simp only [List.mem_singleton] at hx
            subst hx
            by_contra hge
            push_neg at hge
            apply hc
            have h0 : best.2 = 0 := by rw [hbest]
            exact ⟨by rw [h0]; exact lt_of_lt_of_le (by norm_num) hge, hge⟩
        · right
          refine ⟨nb, List.mem_append_left _ hnb, hb1, hsc, hth, ?_⟩
          intro x hx
          rcases List.mem_append.mp hx with hx | hx
          · exact hall x hx
          · simp only [List.mem_singleton] at hx
            subst hx
            by_contra hgt
            push_neg at hgt
            exact hc ⟨hgt, le_trans hth (le_of_lt hgt)⟩
    have hrest := ih (processed ++ [n]) _ hstep
    simpa [List.append_assoc] using hrest

theorem fuzzy_fallback_inv (ratio : String → String → ℕ) (m : TemplateManager)
    (target : String) :
    FuzzyInv ratio m target (get_template_names m)
      ((get_template_names m).foldl (fuzzyStep ratio m target) (none, 0)) := by
  have h := fuzzy_foldl_inv ratio m target (get_template_names m) [] (none, 0)
    (Or.inl ⟨rfl, by simp⟩)
  simpa using h

theorem dictFind_of_mem_keys {α : Type} (d : List (String × α)) (k : String)
    (h : k ∈ dictKeys d) : ∃ v, dictFind d k = some v := by
  induction d with
  | nil => simp [dictKeys] at h
  | cons p rest ih =>
    by_cases hk : p.1 = k
    · exact ⟨p.2, by simp [dictFind, List.find?_cons_of_pos, hk]⟩
    · have hmem : k ∈ dictKeys rest := by
        simp only [dictKeys, List.map_cons, List.mem_cons] at h
        rcases h with h | h
        · exact absurd h.symm hk
        · exact h
      rcases ih hmem with ⟨v, hv⟩
      refine ⟨v, ?_⟩
      simp only [dictFind] at hv ⊢
      rw [List.find?_cons_of_neg _ (by simpa using hk)]
      exact hv

/-- C4: when the canonical name derived from the study labels has no exact
catalog entry, selection returns no match if every catalog entry scores
strictly below the 0.8 similarity threshold, and otherwise returns an entry
of maximal similarity score, that score being at or above 0.8. -/
theorem fuzzy_threshold :
    (∀ (ratio : String → String → ℕ) (m : TemplateManager)
        (dirs : List String) (target : String),
      determine_template_name (parse_directory_names dirs) = some target →
      get_template_by_name m target = none →
      (∀ n ∈ get_template_names m, fuzzyScore ratio target n < 80 / 100) →
      select_template ratio m dirs = none) ∧
    (∀ (ratio : String → String → ℕ) (m : TemplateManager)
        (dirs : List String) (target : String),
      determine_template_name (parse_directory_names dirs) = some target →
      get_template_by_name m target = none →
      (∃ n ∈ get_template_names m, (80 : ℚ) / 100 ≤ fuzzyScore ratio target n) →
      ∃ t nb, select_template ratio m dirs = some t ∧
        nb ∈ get_template_names m ∧ get_template_by_name m nb = some t ∧
        (80 : ℚ) / 100 ≤ fuzzyScore ratio target nb ∧
        ∀ n ∈ get_template_names m,
          fuzzyScore ratio target n ≤ fuzzyScore ratio target nb) := by
  constructor
  · intro ratio m dirs target hdet hmiss hbelow
    have hsel : select_template ratio m dirs = fuzzy_fallback ratio m target := by
      simp only [select_template, hdet, hmiss]
    rw [hsel]
    rcases fuzzy_fallback_inv ratio m target with ⟨hbest, _⟩ | ⟨nb, hnb, _, hsc, hth, _⟩
    · simp only [fuzzy_fallback, hbest]
    · exfalso
      have := hbelow nb hnb
      rw [hsc] at hth
      exact absurd hth (not_le.mpr this)
  · intro ratio m dirs target hdet hmiss hsome
    have hsel : select_template ratio m dirs = fuzzy_fallback ratio m target := by
      simp only [select_template, hdet, hmiss]
    rcases fuzzy_fallback_inv ratio m target with ⟨_, hall⟩ | ⟨nb, hnb, hb1, hsc, hth, hall⟩
    · exfalso
      rcases hsome with ⟨n, hn, hge⟩
      exact absurd hge (not_le.mpr (hall n hn))
    · rcases dictFind_of_mem_keys m.templates_by_name nb hnb with ⟨t, ht⟩
      refine ⟨t, nb, ?_, hnb, ht, by rw [← hsc]; exact hth, ?_⟩
      · rw [hsel]
        simp only [fuzzy_fallback, hb1]
        exact ht
      · intro n hn
        have := hall n hn
        rw [hsc] at this
        exact this

theorem fuzzy_threshold_witness :
    select_template (fun _ _ => 70) catNear ["US_BREAST"] = none ∧
    (∃ t nb,
      select_template (fun _ _ => 85) catNear ["US_BREAST"] = some t ∧
      nb ∈ get_template_names catNear ∧ get_template_by_name catNear nb = some t ∧
      (80 : ℚ) / 100 ≤ fuzzyScore (fun _ _ => 85) "ULTRASOUND OF BOTH BREASTS" nb ∧
      ∀ n ∈ get_template_names catNear,
        fuzzyScore (fun _ _ => 85) "ULTRASOUND OF BOTH BREASTS" n ≤
          fuzzyScore (fun _ _ => 85) "ULTRASOUND OF BOTH BREASTS" nb) :=
  ⟨fuzzy_threshold.1 (fun _ _ => 70) catNear ["US_BREAST"]
      "ULTRASOUND OF BOTH BREASTS" (by rfl) (by rfl)
      (by
        intro n hn
        rw [show get_template_names catNear = ["ULTRASOUND OF BOTH BREAST"]
          from rfl] at hn
        rw [List.mem_singleton.mp hn]
        unfold fuzzyScore
        norm_num),
   fuzzy_threshold.2 (fun _ _ => 85) catNear ["US_BREAST"]
      "ULTRASOUND OF BOTH BREASTS" (by rfl) (by rfl)
      ⟨"ULTRASOUND OF BOTH BREAST",
        by
          rw [show get_template_names catNear = ["ULTRASOUND OF BOTH BREAST"]
            from rfl]
          exact List.mem_singleton.mpr rfl,
        by unfold fuzzyScore; norm_num⟩⟩

/-! ## C6: extraction deduplication -/

/-- C6 counterexample: two `TEMPLATE ONLY` sections with different variation
labels but textually identical bodies yield two extracted Templates with
identical (name, sections) pairs, because the dedup key includes the
variation label. -/
theorem extract_dedup_counterexample :
    ¬ List.Pairwise (fun a b => ¬(a.name = b.name ∧ a.sections = b.sections))
        (extract_from_docx docTwoVariations) := by
  decide

theorem acceptTemplates_inv (variation : String) :
    ∀ (tds : List TemplateData) (tid : ℕ) (seen : List DedupKey)
      (acc : List Template),
      (∀ t ∈ acc, templateKey t ∈ seen) → (acc.map templateKey).Nodup →
      (∀ t ∈ (acceptTemplates variation tds tid seen acc).2.2,
        templateKey t ∈ (acceptTemplates variation tds tid seen acc).2.1) ∧
      ((acceptTemplates variation tds tid seen acc).2.2.map templateKey).Nodup := by
  intro tds
  induction tds with
  | nil => intro tid seen acc h1 h2; exact ⟨h1, h2⟩
  | cons td rest ih =>
    intro tid seen acc h1 h2
    rw [acceptTemplates]
    by_cases hk : dedupKeyOf variation td ∈ seen
    · rw [if_pos hk]
      exact ih tid seen acc h1 h2
    · rw [if_neg hk]
      have hkey : templateKey
          ⟨template_id_string tid, td.name, td.sections, mk_metadata variation⟩ =
          dedupKeyOf variation td := rfl
      apply ih
      · intro t ht
        rcases List.mem_append.mp ht with ht | ht
        · exact List.mem_append_left _ (h1 t ht)
        · rw [List.mem_singleton.mp ht, hkey]
          exact List.mem_append_right _ (List.mem_singleton.mpr rfl)
      · rw [List.map_append, List.map_singleton]
        rw [List.nodup_append]
        refine ⟨h2, List.nodup_singleton _, ?_⟩
        intro k hks hkt
        rw [List.mem_singleton.mp hkt] at hks
        rcases List.mem_map.mp hks with ⟨t, ht, hkt2⟩
        rw [hkey] at hkt2
        exact hk (hkt2 ▸ h1 t ht)

theorem extract_loopAux_nodup :
    ∀ (fuel : ℕ) (elements : List BodyElement) (tid : ℕ)
      (seen : List DedupKey) (acc : List Template),
      (∀ t ∈ acc, templateKey t ∈ seen) → (acc.map templateKey).Nodup →
      ((extract_loopAux fuel elements tid seen acc).map templateKey).Nodup := by
  intro fuel
  induction fuel with
  | zero => intro elements tid seen acc _ h2; exact h2
  | succ fuel ih =>
    intro elements tid seen acc h1 h2
    cases elements with
    | nil => exact h2
    | cons e rest =>
      rw [extract_loopAux]
      by_cases hm : isMarker e
      · rw [if_pos hm]
        have hacc := acceptTemplates_inv (elementVariation e)
          (parseLoop initScan rest).1 tid seen acc h1 h2
        exact ih _ _ _ _ hacc.1 hacc.2
      · rw [if_neg hm]
        exact ih _ _ _ _ h1 h2

/-- C6 (amended): within one extraction run, no two extracted Templates
agree simultaneously on name, on the variation label recorded in their
metadata, and on sections — the dedup key includes the variation, so
identical (name, sections) pairs can still repeat across differently
labelled `TEMPLATE ONLY` sections. -/
theorem extract_dedup_amended (elements : List BodyElement) :
    List.Pairwise (fun a b =>
        ¬(a.name = b.name ∧ variationOf a = variationOf b ∧
          a.sections = b.sections))
      (extract_from_docx elements) := by
  have hnodup : ((extract_from_docx elements).map templateKey).Nodup :=
    extract_loopAux_nodup elements.length elements 1 [] []
      (by intro t ht; simp at ht) (by simp)
  have hpair : List.Pairwise (fun a b => templateKey a ≠ templateKey b)
      (extract_from_docx elements) := by
    rw [List.Nodup, List.pairwise_map] at hnodup
    exact hnodup
  refine hpair.imp ?_
  intro a b hne ⟨hn, hv, hs⟩
  exact hne (by rw [templateKey, templateKey, hn, hv, hs])

end UltrasoundRG
